import Mathlib

/-!
Verification development for the thruster-sim repository.

The scalar type `FloatType` of the source is modelled by `Fl`: an
exact-arithmetic idealisation of IEEE-754 binary64 that keeps the special
values (a single NaN and the two signed infinities) and represents finite
values by rational numbers; rounding is not modelled, so every finite
operation is exact.  Square root is not rational, so the primitive
`FloatType::sqrt` (a Rust intrinsic, external to the sources) is passed in
as a function `sq : ℚ → ℚ` wherever the source calls `sqrt`; theorems that
depend on square roots carry the hypothesis that `sq` is correct on the
values at which it is used.

Matrices (`nalgebra::SMatrix<FloatType, DIM1, DIM2>`) are modelled as
lists of columns, `List (List Fl)`; all the matrix operations the source
uses are componentwise, so shapes are preserved by construction.

The numeric evaluation pipeline `score ∘ evaluate ∘ motor_config`
(driven through `num_dual::gradient`, with `motor_math`'s
`axis_maximums` and `MotorConfig` living in an external crate) is passed
to the optimiser as an opaque function
`F : Point → Fl × Point × B` returning the score, its gradient and the
score breakdown at a point, exactly the data the source obtains from
`num_dual::gradient` in `adam_optimizer` (src/optimize.rs lines 67-78).
Everything downstream of that call — the Adam update, the stagnation
tracker, the done flag, the population bookkeeping and the sorting of
both arenas — is translated directly from src/optimize.rs.
-/

/-- Model of the `FloatType` (f64) scalar: a single NaN, signed
infinities (`inf true` is `+∞`), and exact finite rationals. -/
inductive Fl where
  | nan : Fl
  | inf : Bool → Fl
  | fin : ℚ → Fl
deriving DecidableEq

/-- IEEE negation. -/
def Fl.neg : Fl → Fl
  | nan => nan
  | inf s => inf (!s)
  | fin q => fin (-q)

/-- IEEE addition (exact on finite values). -/
def Fl.add : Fl → Fl → Fl
  | nan, _ => nan
  | _, nan => nan
  | inf s, inf t => if s = t then inf s else nan
  | inf s, fin _ => inf s
  | fin _, inf s => inf s
  | fin a, fin b => fin (a + b)

/-- IEEE subtraction. -/
def Fl.sub (a b : Fl) : Fl := a.add b.neg

/-- IEEE multiplication (exact on finite values). -/
def Fl.mul : Fl → Fl → Fl
  | nan, _ => nan
  | _, nan => nan
  | inf s, inf t => inf (s = t)
  | inf s, fin q => if q = 0 then nan else inf (s = decide (0 < q))
  | fin q, inf s => if q = 0 then nan else inf (s = decide (0 < q))
  | fin a, fin b => fin (a * b)

/-- IEEE division (exact on finite values; the sign of zero is not
modelled, a finite value divided by zero gets the sign of its
numerator). -/
def Fl.div : Fl → Fl → Fl
  | nan, _ => nan
  | _, nan => nan
  | inf _, inf _ => nan
  | inf s, fin q => if q = 0 then inf s else inf (s = decide (0 < q))
  | fin _, inf _ => fin 0
  | fin a, fin b =>
      if b = 0 then (if a = 0 then nan else inf (decide (0 < a))) else fin (a / b)

/-- Absolute value, `FloatType::abs`. -/
def Fl.abs : Fl → Fl
  | nan => nan
  | inf _ => inf true
  | fin q => fin |q|

/-- Square root; the behaviour on finite nonnegative inputs is supplied
by the parameter `sq` standing for the f64 `sqrt` intrinsic. -/
def Fl.sqrtF (sq : ℚ → ℚ) : Fl → Fl
  | nan => nan
  | inf true => inf true
  | inf false => nan
  | fin q => if q < 0 then nan else fin (sq q)

/-- Natural powers by repeated multiplication. -/
def Fl.powNat (x : Fl) : ℕ → Fl
  | 0 => fin 1
  | n + 1 => (x.powNat n).mul x

/-- Model of `FloatType::powi`.  In the source it is only applied to the
constants 0.9 and 0.999 with a positive exponent. -/
def Fl.powi (x : Fl) (n : Int) : Fl :=
  if 0 ≤ n then x.powNat n.toNat else (Fl.fin 1).div (x.powNat (-n).toNat)

/-- The strict `<` of f64 (false whenever either side is NaN). -/
def Fl.lt : Fl → Fl → Bool
  | nan, _ => false
  | _, nan => false
  | inf true, _ => false
  | inf false, inf true => true
  | inf false, inf false => false
  | inf false, fin _ => true
  | fin _, inf true => true
  | fin _, inf false => false
  | fin a, fin b => decide (a < b)

/-- Model of `f64::total_cmp`.  The single NaN of the model is treated as
a positive NaN, which orders above `+∞`. -/
def Fl.totalCmp : Fl → Fl → Ordering
  | nan, nan => .eq
  | nan, _ => .gt
  | _, nan => .lt
  | inf true, inf true => .eq
  | inf true, _ => .gt
  | _, inf true => .lt
  | inf false, inf false => .eq
  | inf false, _ => .lt
  | _, inf false => .gt
  | fin a, fin b => if a < b then .lt else if b < a then .gt else .eq

/-- Rank of a float in the `total_cmp` order, into the lexicographic
product `ℤ ×ₗ ℚ`. -/
def Fl.rank : Fl → Lex (ℤ × ℚ)
  | inf false => toLex (-1, 0)
  | fin q => toLex (0, q)
  | inf true => toLex (1, 0)
  | nan => toLex (2, 0)

/-- Points of the optimisation, modelling `SMatrix<FloatType, D1, D2>` as
a list of columns. -/
def PointM : Type := List (List Fl)

instance : DecidableEq PointM := by
  unfold PointM
  infer_instance

/-- Componentwise binary operation on matrices. -/
def matZipWith (f : Fl → Fl → Fl) (a b : PointM) : PointM :=
  List.zipWith (List.zipWith f) a b

/-- Componentwise unary operation on matrices. -/
def matMap (f : Fl → Fl) (a : PointM) : PointM :=
  List.map (List.map f) a

/-- Matrix addition. -/
def matAdd (a b : PointM) : PointM := matZipWith Fl.add a b

/-- Matrix subtraction. -/
def matSub (a b : PointM) : PointM := matZipWith Fl.sub a b

/-- `component_mul`. -/
def matCompMul (a b : PointM) : PointM := matZipWith Fl.mul a b

/-- `component_div`. -/
def matCompDiv (a b : PointM) : PointM := matZipWith Fl.div a b

/-- Scalar times matrix. -/
def matScale (s : Fl) (a : PointM) : PointM := matMap (fun x => Fl.mul s x) a

/-- Matrix divided by a scalar. -/
def matDivScalar (a : PointM) (s : Fl) : PointM := matMap (fun x => Fl.div x s) a

/-- `add_scalar`. -/
def matAddScalar (a : PointM) (s : Fl) : PointM := matMap (fun x => Fl.add x s) a

/-- Sum of the entries of a vector. -/
def vecSum (v : List Fl) : Fl := v.foldr Fl.add (Fl.fin 0)

/-- Dot product of two matrices viewed as flat vectors. -/
def matDot (a b : PointM) : Fl :=
  vecSum ((matCompMul a b).map vecSum)

/-- A zero matrix of the same shape as the argument, `SMatrix::zeros`. -/
def matZeroLike (a : PointM) : PointM := matMap (fun _ => Fl.fin 0) a

/-- Squared euclidean norm of a vector. -/
def vecNormSq (v : List Fl) : Fl := vecSum (v.map (fun x => Fl.mul x x))

/-- nalgebra `normalize`: divide every entry by the euclidean norm. -/
def vecNormalize (sq : ℚ → ℚ) (v : List Fl) : List Fl :=
  v.map (fun x => Fl.div x (Fl.sqrtF sq (vecNormSq v)))

/-- Per-seed optimisation state, from src/optimize.rs lines 136-146. -/
structure OptimizationState where
  point : PointM
  first_moment : PointM
  second_moment : PointM
  frontier_threshold : Fl × Int
  time : Int
  done : Bool
deriving DecidableEq

/-- `OptimizationState::new` (src/optimize.rs lines 148-159): zero
moments, time 0, frontier threshold `(NEG_INFINITY, 0)`, not done. -/
def OptimizationState.new (p : PointM) : OptimizationState where
  point := p
  first_moment := matZeroLike p
  second_moment := matZeroLike p
  frontier_threshold := (Fl.inf false, 0)
  time := 0
  done := false

/-- The part of the `OptimizableConfig` trait the optimiser step uses:
`motor_config` (whose result type `MotorConfig` lives in the external
`motor_math` crate and is kept opaque here) and `normalise_point`. -/
structure OptimizableConfig (MC : Type) where
  motor_config : PointM → MC
  normalise_point : PointM → PointM

/-- The `Ascent` record returned by `adam_optimizer`
(src/optimize.rs lines 123-134). -/
structure Ascent (B : Type) where
  old_point : OptimizationState
  new_point : OptimizationState
  old_score : Fl
  est_new_score : Fl
  gradient : PointM
  score_breakdown : B

/-- The raw (pre-`normalise_point`) Adam update of the parameter vector,
factored out of `adam_optimizer` (src/optimize.rs lines 80-95): moment
updates with `β₁ = 0.9`, `β₂ = 0.999`, bias correction by `powi` of the
betas, and the step `point + step_size · m̂ / (√v̂ + 10⁻¹⁰)`. -/
def adamRawNewPoint (sq : ℚ → ℚ) (step_size : Fl)
    (old_point : PointM) (first_moment second_moment : PointM)
    (grad : PointM) (new_time : Int) : PointM × PointM × PointM :=
  let beta_1 : Fl := Fl.fin (9/10)
  let beta_2 : Fl := Fl.fin (999/1000)
  let epsilon : Fl := Fl.fin (1/10000000000)
  let new_first_moment :=
    matAdd (matScale beta_1 first_moment) (matScale ((Fl.fin 1).sub beta_1) grad)
  let new_second_moment :=
    matAdd (matScale beta_2 second_moment)
      (matScale ((Fl.fin 1).sub beta_2) (matCompMul grad grad))
  let first_moment_hat :=
    matDivScalar new_first_moment ((Fl.fin 1).sub (beta_1.powi new_time))
  let second_moment_hat :=
    matDivScalar new_second_moment ((Fl.fin 1).sub (beta_2.powi new_time))
  let new_point :=
    matAdd old_point
      (matScale step_size
        (matCompDiv first_moment_hat
          (matAddScalar (matMap (Fl.sqrtF sq) second_moment_hat) epsilon)))
  (new_point, new_first_moment, new_second_moment)

/-- `adam_optimizer` (src/optimize.rs lines 44-121).  `F` stands for the
external forward-mode AD evaluation of `score ∘ evaluate ∘ motor_config`
at a point, returning `(score, gradient, breakdown)` exactly as the
source obtains them from `num_dual::gradient`. -/
def adam_optimizer {MC B : Type} (sq : ℚ → ℚ) (F : PointM → Fl × PointM × B)
    (config : OptimizableConfig MC) (step_size frontier_ratio_threshold : Fl)
    (old_point : OptimizationState) : Ascent B :=
  let r := F old_point.point
  let score := r.1
  let grad := r.2.1
  let new_time := old_point.time + 1
  let upd := adamRawNewPoint sq step_size old_point.point
    old_point.first_moment old_point.second_moment grad new_time
  let frontier_threshold :=
    if ((old_point.frontier_threshold.1.mul frontier_ratio_threshold).abs.lt
        score.abs) = true
    then (score, new_time) else old_point.frontier_threshold
  let new_state : OptimizationState :=
    { point := config.normalise_point upd.1
      first_moment := upd.2.1
      second_moment := upd.2.2
      time := new_time
      frontier_threshold := frontier_threshold
      done := old_point.done }
  { old_point := old_point
    new_point := new_state
    old_score := score
    est_new_score := score.add (matDot grad (matSub new_state.point old_point.point))
    gradient := grad
    score_breakdown := r.2.2 }

/-- The per-seed body of `SyncOptimizationArena::step`
(src/optimize.rs lines 464-481): skip done seeds, otherwise run the Adam
step, record the evaluated (old) score and the breakdown, and mark the
seed done when `time - frontier_threshold.1 > frontier_time_limit`. -/
def stepEntrySync {MC B : Type} (sq : ℚ → ℚ) (F : PointM → Fl × PointM × B)
    (config : OptimizableConfig MC) (step_size frontier_ratio_threshold : Fl)
    (frontier_time_limit : Int) (e : Fl × OptimizationState × B) :
    Fl × OptimizationState × B :=
  if e.2.1.done then e
  else
    let ascent := adam_optimizer sq F config step_size frontier_ratio_threshold e.2.1
    let p := ascent.new_point
    let p' := if frontier_time_limit < p.time - p.frontier_threshold.2
      then { p with done := true } else p
    (ascent.old_score, p', ascent.score_breakdown)

/-- The per-seed body of `AsyncOptimizationArena::step`
(src/optimize.rs lines 559-577): identical to the serial body except that
the `point.done = true` assignment is commented out in the source, so the
done flag is never set. -/
def stepEntryAsync {MC B : Type} (sq : ℚ → ℚ) (F : PointM → Fl × PointM × B)
    (config : OptimizableConfig MC) (step_size frontier_ratio_threshold : Fl)
    (e : Fl × OptimizationState × B) : Fl × OptimizationState × B :=
  if e.2.1.done then e
  else
    let ascent := adam_optimizer sq F config step_size frontier_ratio_threshold e.2.1
    (ascent.old_score, ascent.new_point, ascent.score_breakdown)

/-- `OptimizationOutput` (src/optimize.rs lines 401-407); `parameters`
holds the same column-major data as the state's point. -/
structure OptimizationOutput (MC B Bs : Type) where
  score : Fl
  motor_config : MC
  parameters : PointM
  score_result_unscaled : B
  score_result_scaled : Bs

/-- The serial arena (src/optimize.rs lines 409-424).  The heuristic
settings are opaque here (type `H`); they only feed the external
evaluation and the breakdown scaling. -/
structure SyncOptimizationArena (MC B H : Type) where
  config : OptimizableConfig MC
  heuristic : H
  points : List (Fl × OptimizationState × B)
  step_size : Fl
  frontier_ratio_threshold : Fl
  frontier_time_limit : Int

/-- `SyncOptimizationArena::new` (src/optimize.rs lines 426-437). -/
def SyncOptimizationArena.new {MC B H : Type} (config : OptimizableConfig MC)
    (h0 : H) : SyncOptimizationArena MC B H where
  config := config
  heuristic := h0
  points := []
  step_size := Fl.fin (1/100)
  frontier_ratio_threshold := Fl.fin (101/100)
  frontier_time_limit := 25

/-- `SyncOptimizationArena::reset` (src/optimize.rs lines 451-458); the
random initial points of `initial_points` are supplied as a list, and
`b0` stands for `Default::default()` of the breakdown. -/
def SyncOptimizationArena.reset {MC B H : Type}
    (a : SyncOptimizationArena MC B H) (ps : List PointM) (h : H) (b0 : B) :
    SyncOptimizationArena MC B H :=
  { a with
    points := ps.map (fun p => (Fl.inf false, OptimizationState.new p, b0))
    heuristic := h }

/-- Sort comparator of the serial arena's step:
`sort_by(|a, b| FloatType::total_cmp(&a.0, &b.0))`
(src/optimize.rs line 484) — ascending in the total order. -/
def syncSortLe {B : Type} (x y : Fl × OptimizationState × B) : Bool :=
  Fl.totalCmp x.1 y.1 ≠ Ordering.gt

/-- Sort comparator of the data-parallel arena's step:
`sort_by(|a, b| FloatType::total_cmp(&a.0, &b.0).reverse())`
(src/optimize.rs lines 580-581) — descending in the total order. -/
def asyncSortLe {B : Type} (x y : Fl × OptimizationState × B) : Bool :=
  Fl.totalCmp x.1 y.1 ≠ Ordering.lt

/-- Packaging of a ranked population entry as an `OptimizationOutput`
(src/optimize.rs lines 486-496 and 583-593). -/
def mkOutput {MC B Bs H : Type} (config : OptimizableConfig MC) (heuristic : H)
    (scaleF : H → B → Bs) (e : Fl × OptimizationState × B) :
    OptimizationOutput MC B Bs where
  score := e.1
  motor_config := config.motor_config e.2.1.point
  parameters := e.2.1.point
  score_result_unscaled := e.2.2
  score_result_scaled := scaleF heuristic e.2.2

/-- `SyncOptimizationArena::step` (src/optimize.rs lines 460-497):
advance every non-done seed, mark freshly stagnant seeds done, sort the
population ascending by `total_cmp` of the stored score, and return the
population as outputs.  `scaleF` stands for `ScoreResult::scale`. -/
def SyncOptimizationArena.step {MC B Bs H : Type} (sq : ℚ → ℚ)
    (F : PointM → Fl × PointM × B) (scaleF : H → B → Bs)
    (a : SyncOptimizationArena MC B H) :
    SyncOptimizationArena MC B H × List (OptimizationOutput MC B Bs) :=
  let stepped := a.points.map
    (stepEntrySync sq F a.config a.step_size a.frontier_ratio_threshold
      a.frontier_time_limit)
  let sorted := stepped.mergeSort syncSortLe
  ({ a with points := sorted },
    sorted.map (mkOutput a.config a.heuristic scaleF))

/-- Iterated serial steps (outputs discarded). -/
def SyncOptimizationArena.stepN {MC B Bs H : Type} (sq : ℚ → ℚ)
    (F : PointM → Fl × PointM × B) (scaleF : H → B → Bs) :
    ℕ → SyncOptimizationArena MC B H → SyncOptimizationArena MC B H
  | 0, a => a
  | n + 1, a => (SyncOptimizationArena.step sq F scaleF
      (SyncOptimizationArena.stepN sq F scaleF n a)).1

/-- The data-parallel arena (src/optimize.rs lines 500-515); its fields
are identical to the serial arena's. -/
structure AsyncOptimizationArena (MC B H : Type) where
  config : OptimizableConfig MC
  heuristic : H
  points : List (Fl × OptimizationState × B)
  step_size : Fl
  frontier_ratio_threshold : Fl
  frontier_time_limit : Int

/-- `AsyncOptimizationArena::new` (src/optimize.rs lines 517-528). -/
def AsyncOptimizationArena.new {MC B H : Type} (config : OptimizableConfig MC)
    (h0 : H) : AsyncOptimizationArena MC B H where
  config := config
  heuristic := h0
  points := []
  step_size := Fl.fin (1/100)
  frontier_ratio_threshold := Fl.fin (101/100)
  frontier_time_limit := 25

/-- `AsyncOptimizationArena::reset` (src/optimize.rs lines 544-551). -/
def AsyncOptimizationArena.reset {MC B H : Type}
    (a : AsyncOptimizationArena MC B H) (ps : List PointM) (h : H) (b0 : B) :
    AsyncOptimizationArena MC B H :=
  { a with
    points := ps.map (fun p => (Fl.inf false, OptimizationState.new p, b0))
    heuristic := h }

/-- `AsyncOptimizationArena::step` (src/optimize.rs lines 553-594): the
per-seed work is done independently per seed (the rayon fan-out does not
change the per-seed arithmetic), the done flag is never set (the
assignment is commented out in the source), and the population is sorted
descending by `total_cmp` of the stored score. -/
def AsyncOptimizationArena.step {MC B Bs H : Type} (sq : ℚ → ℚ)
    (F : PointM → Fl × PointM × B) (scaleF : H → B → Bs)
    (a : AsyncOptimizationArena MC B H) :
    AsyncOptimizationArena MC B H × List (OptimizationOutput MC B Bs) :=
  let stepped := a.points.map
    (stepEntryAsync sq F a.config a.step_size a.frontier_ratio_threshold)
  let sorted := stepped.mergeSort asyncSortLe
  ({ a with points := sorted },
    sorted.map (mkOutput a.config a.heuristic scaleF))

/-- Iterated data-parallel steps (outputs discarded). -/
def AsyncOptimizationArena.stepN {MC B Bs H : Type} (sq : ℚ → ℚ)
    (F : PointM → Fl × PointM × B) (scaleF : H → B → Bs) :
    ℕ → AsyncOptimizationArena MC B H → AsyncOptimizationArena MC B H
  | 0, a => a
  | n + 1, a => (AsyncOptimizationArena.step sq F scaleF
      (AsyncOptimizationArena.stepN sq F scaleF n a)).1

/-- `SymetricalOptimization::normalise_point` (src/optimize.rs lines
318-324): every column keeps its position rows 0-2 and has its
orientation rows 3-5 normalised as a 3-vector. -/
def symNormalisePoint (sq : ℚ → ℚ) (p : PointM) : PointM :=
  p.map (fun col => col.take 3 ++ vecNormalize sq (col.drop 3))

/-- The `SymetricalOptimization<HALF_THRUSTER_COUNT>` parameterisation as
an `OptimizableConfig`; its `motor_config` builds a `MotorConfig` in the
external `motor_math` crate and is kept opaque. -/
def SymetricalOptimization {MC : Type} (sq : ℚ → ℚ) (mcf : PointM → MC) :
    OptimizableConfig MC where
  motor_config := mcf
  normalise_point := symNormalisePoint sq

/-- `MotorRecord` (src/motor_code.rs lines 176-185), over exact
rationals. -/
structure MotorRecord where
  pwm : ℚ
  rpm : ℚ
  current : ℚ
  voltage : ℚ
  power : ℚ
  force : ℚ
  efficiency : ℚ
deriving DecidableEq

/-- `MotorData` (src/motor_code.rs lines 148-151): the forward and
backward halves of the measurement table. -/
structure MotorData where
  forward : List MotorRecord
  backward : List MotorRecord

/-- `MotorData::lookup_by_current` (src/motor_code.rs lines 162-173).
The sign of the input picks the half; `partition_point(|x| x.current <
current)` on a table sorted ascending by current is the length of the
maximal prefix of records with `current` strictly below the query, and
the record at that index is returned.  The source indexes
`data_set[idx]` directly; `none` models the out-of-bounds panic when the
index equals the length. -/
def MotorData.lookup_by_current (d : MotorData) (signed_current : ℚ) :
    Option MotorRecord :=
  let current := |signed_current|
  let data_set := if 0 ≤ signed_current then d.forward else d.backward
  let idx := (data_set.takeWhile (fun x => decide (x.current < current))).length
  data_set.get? idx

/-- 3-vectors over exact rationals, for the motor-placement model. -/
structure Vec3 where
  x : ℚ
  y : ℚ
  z : ℚ
deriving DecidableEq

/-- Spin direction of a thruster (`motor_math::Direction`). -/
inductive Direction where
  | Clockwise
  | CounterClockwise
deriving DecidableEq

/-- A thruster: position, thrust orientation, spin direction. -/
structure Motor where
  position : Vec3
  orientation : Vec3
  direction : Direction
deriving DecidableEq

/-- The eight motor slots of the X3D configuration. -/
inductive X3dMotorId where
  | FrontRightTop
  | FrontRightBottom
  | FrontLeftTop
  | BackRightTop
  | FrontLeftBottom
  | BackLeftTop
  | BackRightBottom
  | BackLeftBottom
deriving DecidableEq

/-- The three mirror symmetries (src/lib.rs lines 106-123). -/
inductive VectorTransform where
  | ReflectXY
  | ReflectYZ
  | ReflectXZ
deriving DecidableEq

/-- Apply a mirror symmetry to a vector (src/lib.rs lines 113-123). -/
def VectorTransform.transform : VectorTransform → Vec3 → Vec3
  | ReflectXY, v => ⟨v.x, v.y, -v.z⟩
  | ReflectYZ, v => ⟨-v.x, v.y, v.z⟩
  | ReflectXZ, v => ⟨v.x, -v.y, v.z⟩

/-- The reflection set generating each of the 8 motors from the
front-right-top seed (src/lib.rs lines 60-73). -/
def x3dTransforms : X3dMotorId → List VectorTransform
  | .FrontRightTop => []
  | .FrontRightBottom => [.ReflectXY]
  | .FrontLeftTop => [.ReflectYZ]
  | .BackRightTop => [.ReflectXZ]
  | .FrontLeftBottom => [.ReflectXY, .ReflectYZ]
  | .BackLeftTop => [.ReflectYZ, .ReflectXZ]
  | .BackRightBottom => [.ReflectXZ, .ReflectXY]
  | .BackLeftBottom => [.ReflectXY, .ReflectYZ, .ReflectXZ]

/-- Flip a spin direction. -/
def Direction.flip : Direction → Direction
  | .Clockwise => .CounterClockwise
  | .CounterClockwise => .Clockwise

/-- Modelled from the spec: `motor_math::MotorConfig::<X3dMotorId>::new`
is not under src/ (the `motor_math` crate is external); per §4.F and §3
of the spec it builds the 8 motors as the images of the seed motor under
the three mirror symmetries, the spin direction alternating with the
parity of the composed reflections.  The reflection table mirrors the
in-repo legacy implementation `MotorConfig::compute_motors`
(src/lib.rs lines 45-104). -/
def X3dMotorConfigNew (seed : Motor) : X3dMotorId → Motor :=
  fun id =>
    (x3dTransforms id).foldl
      (fun m t =>
        { position := t.transform m.position
          orientation := t.transform m.orientation
          direction := m.direction.flip })
      seed

/-- `FixedX3dOptimization` (src/optimize.rs lines 181-185). -/
structure FixedX3dOptimization where
  width : ℚ
  length : ℚ
  height : ℚ

/-- `FixedX3dOptimization::motor_config` (src/optimize.rs lines
200-209): the seed motor sits at `(width, length, height)` of the struct
(the callers pass the half-dimensions), its orientation is the parameter
vector, and it spins clockwise. -/
def FixedX3dOptimization.motor_config (c : FixedX3dOptimization)
    (params : Vec3) : X3dMotorId → Motor :=
  X3dMotorConfigNew
    { position := ⟨c.width, c.length, c.height⟩
      orientation := params
      direction := .Clockwise }

/-- Modelled from the spec: the crate-level constants `WIDTH`, `LENGTH`,
`HEIGHT` re-exported by the `thruster_sim` library root are not in the
provided sources; spec §8 S2 gives the box as `(0.325, 0.355, 0.241) m`
(matching the constants in src/bin/accent.rs lines 14-16). -/
def WIDTH : ℚ := 325/1000

/-- See `WIDTH`. -/
def LENGTH : ℚ := 355/1000

/-- See `WIDTH`. -/
def HEIGHT : ℚ := 241/1000

/-- The `FixedX3dOptimization` built by `handle_reset`
(src/bin/bevy_thruster_sim/optimizer.rs lines 117-129): each field is
half the corresponding box dimension. -/
def handleResetX3dConfig : FixedX3dOptimization where
  width := WIDTH / 2
  length := LENGTH / 2
  height := HEIGHT / 2

/-- A concrete square-root oracle, correct on the values at which the
concrete runs below evaluate `sqrt` (0, 1, 25). -/
def sqEx (q : ℚ) : ℚ :=
  if q = 0 then 0 else if q = 1 then 1 else if q = 25 then 5 else 0

/-- The opaque heuristic/breakdown instances of the concrete runs are
all trivial; this is the corresponding `ScoreResult::scale`. -/
def unitScale : Unit → Unit → Unit := fun _ _ => ()

/-- The `SymetricalOptimization` configuration with an erased motor
configuration, used by the concrete runs. -/
def unitCfg : OptimizableConfig Unit := SymetricalOptimization sqEx (fun _ => ())

/-- An evaluation oracle whose score is the first parameter entry (the
x-position of the first motor of a `SymetricalOptimization` column) and
whose gradient is zero. -/
def projScoreF (p : PointM) : Fl × PointM × Unit :=
  ((p.headD []).headD (Fl.fin 0), matZeroLike p, ())

/-- An evaluation oracle whose score is the first parameter entry and
whose gradient is constantly the first basis matrix. -/
def projGradF (p : PointM) : Fl × PointM × Unit :=
  ((p.headD []).headD (Fl.fin 0),
   [[Fl.fin 1, Fl.fin 0, Fl.fin 0, Fl.fin 0, Fl.fin 0, Fl.fin 0]], ())

/-- An evaluation oracle with constant score 5 and zero gradient: its
score never improves, and its gradient norm is far below the
`critical_point_epsilon` of the spec's stationarity rule. -/
def constScoreF (p : PointM) : Fl × PointM × Unit :=
  (Fl.fin 5, matZeroLike p, ())

/-- An evaluation oracle with constant score -20 and zero gradient. -/
def negScoreF (p : PointM) : Fl × PointM × Unit :=
  (Fl.fin (-20), matZeroLike p, ())

/-- A six-dimensional single-column point: position at the origin,
orientation `(1, 0, 0)`. -/
def ptOri : PointM :=
  [[Fl.fin 0, Fl.fin 0, Fl.fin 0, Fl.fin 1, Fl.fin 0, Fl.fin 0]]

/-- Like `ptOri` with x-position 1. -/
def ptOriX1 : PointM :=
  [[Fl.fin 1, Fl.fin 0, Fl.fin 0, Fl.fin 1, Fl.fin 0, Fl.fin 0]]

/-- Like `ptOri` with x-position 2. -/
def ptOriX2 : PointM :=
  [[Fl.fin 2, Fl.fin 0, Fl.fin 0, Fl.fin 1, Fl.fin 0, Fl.fin 0]]

/-- A single-column point all of whose entries are NaN. -/
def ptNan : PointM :=
  [[Fl.nan, Fl.nan, Fl.nan, Fl.nan, Fl.nan, Fl.nan]]

/-- A freshly reset serial arena over the given seed points. -/
def syncArenaOf (ps : List PointM) : SyncOptimizationArena Unit Unit Unit :=
  SyncOptimizationArena.reset (SyncOptimizationArena.new unitCfg ()) ps () ()

/-- A freshly reset data-parallel arena over the given seed points. -/
def asyncArenaOf (ps : List PointM) : AsyncOptimizationArena Unit Unit Unit :=
  AsyncOptimizationArena.reset (AsyncOptimizationArena.new unitCfg ()) ps () ()

/-- Provenance of one output of a serial `step` call: it stems from a
population entry; a done entry is passed through unchanged, while for a
live entry the output's `score` is the evaluation of the seed's
PRE-step parameters and the output's `parameters` field is the
POST-step (Adam-updated, normalised) parameter matrix. -/
def outputProvenance {MC B Bs H : Type} (sq : ℚ → ℚ)
    (F : PointM → Fl × PointM × B) (a : SyncOptimizationArena MC B H)
    (o : OptimizationOutput MC B Bs) : Prop :=
  ∃ e ∈ a.points,
    (e.2.1.done = true ∧ o.score = e.1 ∧ o.parameters = e.2.1.point) ∨
    (e.2.1.done = false ∧ o.score = (F e.2.1.point).1 ∧
      o.parameters = a.config.normalise_point
        (adamRawNewPoint sq a.step_size e.2.1.point e.2.1.first_moment
          e.2.1.second_moment (F e.2.1.point).2.1 (e.2.1.time + 1)).1)

/-- Sample motor record with current 5 A. -/
def recLow : MotorRecord :=
  { pwm := 1300, rpm := 900, current := 5, voltage := 16, power := 80,
    force := 1, efficiency := 50 }

/-- Sample motor record with current 10 A. -/
def recHigh : MotorRecord :=
  { pwm := 1700, rpm := 2800, current := 10, voltage := 16, power := 160,
    force := 3, efficiency := 45 }

/-- Sample reverse-half motor record with current 4 A. -/
def recBack : MotorRecord :=
  { pwm := 1200, rpm := 1100, current := 4, voltage := 16, power := 64,
    force := -1, efficiency := 40 }

/-- A small sorted motor-data table. -/
def egMotorData : MotorData :=
  { forward := [recLow, recHigh], backward := [recBack] }

/-- An optimisation state whose stagnation tracker holds the finite
score -10 recorded at time 0. -/
def c5OldState : OptimizationState :=
  { OptimizationState.new ptOri with frontier_threshold := (Fl.fin (-10), 0) }

/-- A fresh optimisation state marked done. -/
def doneState : OptimizationState :=
  { OptimizationState.new ptOri with done := true }

/-- A serial arena holding a single done seed with stored score 7. -/
def doneSeedArena : SyncOptimizationArena Unit Unit Unit :=
  { syncArenaOf [] with points := [(Fl.fin 7, doneState, ())] }

theorem Fl.lt_posInf_left (x : Fl) : Fl.lt (Fl.inf true) x = false := by
  cases x <;> rfl

theorem Fl.totalCmp_ne_gt_iff (x y : Fl) :
    (Fl.totalCmp x y ≠ Ordering.gt) ↔ x.rank ≤ y.rank := by
  rcases x with _ | s | q <;> rcases y with _ | t | r <;>
      (try cases s) <;> (try cases t) <;>
      simp [Fl.totalCmp, Fl.rank, Prod.Lex.le_iff]
  exact le_total r q

theorem Fl.totalCmp_ne_lt_iff (x y : Fl) :
    (Fl.totalCmp x y ≠ Ordering.lt) ↔ y.rank ≤ x.rank := by
  rcases x with _ | s | q <;> rcases y with _ | t | r <;>
      (try cases s) <;> (try cases t) <;>
      simp [Fl.totalCmp, Fl.rank, Prod.Lex.le_iff]

theorem syncSortLe_trans {B : Type} (a b c : Fl × OptimizationState × B)
    (h1 : syncSortLe a b = true) (h2 : syncSortLe b c = true) :
    syncSortLe a c = true := by
  simp only [syncSortLe, decide_eq_true_eq, Fl.totalCmp_ne_gt_iff] at h1 h2 ⊢
  exact le_trans h1 h2

theorem syncSortLe_total {B : Type} (a b : Fl × OptimizationState × B) :
    (syncSortLe a b || syncSortLe b a) = true := by
  simp only [syncSortLe, Bool.or_eq_true, decide_eq_true_eq, Fl.totalCmp_ne_gt_iff]
  exact le_total _ _

theorem asyncSortLe_trans {B : Type} (a b c : Fl × OptimizationState × B)
    (h1 : asyncSortLe a b = true) (h2 : asyncSortLe b c = true) :
    asyncSortLe a c = true := by
  simp only [asyncSortLe, decide_eq_true_eq, Fl.totalCmp_ne_lt_iff] at h1 h2 ⊢
  exact le_trans h2 h1

theorem asyncSortLe_total {B : Type} (a b : Fl × OptimizationState × B) :
    (asyncSortLe a b || asyncSortLe b a) = true := by
  simp only [asyncSortLe, Bool.or_eq_true, decide_eq_true_eq, Fl.totalCmp_ne_lt_iff]
  exact le_total _ _

theorem ordLtEqGt : (Ordering.lt = Ordering.gt) = False := by decide

theorem ordGtEqGt : (Ordering.gt = Ordering.gt) = True := by decide

theorem ordEqEqGt : (Ordering.eq = Ordering.gt) = False := by decide

theorem ordLtEqLt : (Ordering.lt = Ordering.lt) = True := by decide

theorem ordGtEqLt : (Ordering.gt = Ordering.lt) = False := by decide

theorem ordEqEqLt : (Ordering.eq = Ordering.lt) = False := by decide

/-- C9: in the Fixed-X3D parameterisation, as configured by the UI's
`handle_reset`, `motor_config(params)` places the single seed motor at
`(width/2, length/2, height/2)` of the configured
`(WIDTH, LENGTH, HEIGHT)` box with orientation equal to the parameter
vector, and the 8 motors are its images under the three mirror
symmetries `reflectXY`, `reflectYZ`, `reflectXZ`. -/
theorem C9_fixed_x3d_motor_placement (p : Vec3) :
    handleResetX3dConfig.motor_config p X3dMotorId.FrontRightTop =
      { position := ⟨WIDTH/2, LENGTH/2, HEIGHT/2⟩, orientation := p,
        direction := .Clockwise } ∧
    handleResetX3dConfig.motor_config p X3dMotorId.FrontRightBottom =
      { position := ⟨WIDTH/2, LENGTH/2, -(HEIGHT/2)⟩,
        orientation := ⟨p.x, p.y, -p.z⟩, direction := .CounterClockwise } ∧
    handleResetX3dConfig.motor_config p X3dMotorId.FrontLeftTop =
      { position := ⟨-(WIDTH/2), LENGTH/2, HEIGHT/2⟩,
        orientation := ⟨-p.x, p.y, p.z⟩, direction := .CounterClockwise } ∧
    handleResetX3dConfig.motor_config p X3dMotorId.BackRightTop =
      { position := ⟨WIDTH/2, -(LENGTH/2), HEIGHT/2⟩,
        orientation := ⟨p.x, -p.y, p.z⟩, direction := .CounterClockwise } ∧
    handleResetX3dConfig.motor_config p X3dMotorId.FrontLeftBottom =
      { position := ⟨-(WIDTH/2), LENGTH/2, -(HEIGHT/2)⟩,
        orientation := ⟨-p.x, p.y, -p.z⟩, direction := .Clockwise } ∧
    handleResetX3dConfig.motor_config p X3dMotorId.BackLeftTop =
      { position := ⟨-(WIDTH/2), -(LENGTH/2), HEIGHT/2⟩,
        orientation := ⟨-p.x, -p.y, p.z⟩, direction := .Clockwise } ∧
    handleResetX3dConfig.motor_config p X3dMotorId.BackRightBottom =
      { position := ⟨WIDTH/2, -(LENGTH/2), -(HEIGHT/2)⟩,
        orientation := ⟨p.x, -p.y, -p.z⟩, direction := .Clockwise } ∧
    handleResetX3dConfig.motor_config p X3dMotorId.BackLeftBottom =
      { position := ⟨-(WIDTH/2), -(LENGTH/2), -(HEIGHT/2)⟩,
        orientation := ⟨-p.x, -p.y, -p.z⟩, direction := .CounterClockwise } := by
  refine ⟨rfl, rfl, rfl, rfl, rfl, rfl, rfl, rfl⟩

/-- C6: evaluation of `MotorData::lookup_by_current` on a concrete
sorted table.  Queries whose magnitude lies at or below the selected
half's largest sample return a record (the below-minimum query clamps to
the first record), but a query beyond the half's largest sample indexes
one past the end — `data_set[idx]` panics in the source, modelled as
`none` — instead of returning the endpoint record. -/
theorem C6_lookup_beyond_table_fails :
    egMotorData.lookup_by_current 20 = none ∧
    egMotorData.lookup_by_current (-9) = none ∧
    egMotorData.lookup_by_current 3 = some recLow ∧
    egMotorData.lookup_by_current 7 = some recHigh ∧
    egMotorData.lookup_by_current (-2) = some recBack := by
  norm_num [MotorData.lookup_by_current, egMotorData, recLow, recHigh, recBack,
    List.takeWhile]

/-- C5 (amended): the stagnation tracker written by `adam_optimizer` is
`(score, time + 1)` exactly when
`|frontier_threshold.0 · frontier_ratio_threshold| < |score|` — the
comparison takes absolute values on both sides — and is the old tracker
otherwise. -/
theorem C5_frontier_refresh_rule {MC B : Type} (sq : ℚ → ℚ)
    (F : PointM → Fl × PointM × B) (config : OptimizableConfig MC)
    (step_size frontier_ratio_threshold : Fl) (old : OptimizationState) :
    (adam_optimizer sq F config step_size frontier_ratio_threshold
        old).new_point.frontier_threshold =
      if ((old.frontier_threshold.1.mul frontier_ratio_threshold).abs.lt
          (F old.point).1.abs) = true
        then ((F old.point).1, old.time + 1)
        else old.frontier_threshold := rfl

/-- C5 (counterexample): with tracker score -10, ratio 1.01 and current
raw score -20, the raw score does NOT exceed
`frontier_threshold.0 · frontier_ratio_threshold = -10.1`, yet the
tracker is refreshed to `(-20, 1)` because the source compares absolute
values. -/
theorem C5_counterexample :
    (adam_optimizer sqEx negScoreF unitCfg (Fl.fin (1/100)) (Fl.fin (101/100))
        c5OldState).new_point.frontier_threshold = (Fl.fin (-20), 1) ∧
    Fl.lt (Fl.mul (Fl.fin (-10)) (Fl.fin (101/100))) (Fl.fin (-20)) = false := by
  constructor
  · norm_num [adam_optimizer, c5OldState, OptimizationState.new, negScoreF,
      Fl.mul, Fl.abs, Fl.lt, abs_of_nonpos, abs_of_nonneg]
  · norm_num [Fl.mul, Fl.lt]

/-- C1: the data-parallel arena's `step` returns outputs sorted
descending in `total_cmp` of the score (consecutive outputs never
satisfy `score[i] < score[i+1]`), but the serial arena's `step` — whose
`sort_by` lacks the `.reverse()` of the parallel arena — returns
ascending scores: on a two-seed population evaluating to scores 1 and 2
it returns `[1, 2]`, with the first strictly below the second in the
total order. -/
theorem C1_output_order :
    (∀ (MC B Bs H : Type) (sq : ℚ → ℚ) (F : PointM → Fl × PointM × B)
        (scaleF : H → B → Bs) (a : AsyncOptimizationArena MC B H),
      ((AsyncOptimizationArena.step sq F scaleF a).2).Pairwise
        (fun o1 o2 => Fl.totalCmp o1.score o2.score ≠ Ordering.lt)) ∧
    ((SyncOptimizationArena.step sqEx projScoreF unitScale
        (syncArenaOf [ptOriX1, ptOriX2])).2.map (fun o => o.score)) =
      [Fl.fin 1, Fl.fin 2] ∧
    Fl.totalCmp (Fl.fin 1) (Fl.fin 2) = Ordering.lt := by
  refine ⟨?_, ?_, by norm_num [Fl.totalCmp]⟩
  · intro MC B Bs H sq F scaleF a
    have hs := @List.sorted_mergeSort _ asyncSortLe
      (fun x y z => asyncSortLe_trans x y z) (fun x y => asyncSortLe_total x y)
      (a.points.map (stepEntryAsync sq F a.config a.step_size
        a.frontier_ratio_threshold))
    show (((a.points.map (stepEntryAsync sq F a.config a.step_size
        a.frontier_ratio_threshold)).mergeSort asyncSortLe).map
      (mkOutput a.config a.heuristic scaleF)).Pairwise
        (fun o1 o2 => Fl.totalCmp o1.score o2.score ≠ Ordering.lt)
    refine List.Pairwise.map (mkOutput a.config a.heuristic scaleF) ?_ hs
    intro x y hxy
    simpa [asyncSortLe, mkOutput] using hxy
  · norm_num [SyncOptimizationArena.step, stepEntrySync, adam_optimizer,
      adamRawNewPoint, mkOutput, syncArenaOf, SyncOptimizationArena.new,
      SyncOptimizationArena.reset, OptimizationState.new, unitCfg,
      SymetricalOptimization, symNormalisePoint, vecNormalize, vecNormSq,
      vecSum, matAdd, matScale, matDivScalar, matAddScalar, matCompMul,
      matCompDiv, matZipWith, matMap, matZeroLike, Fl.add, Fl.sub, Fl.neg,
      Fl.mul, Fl.div, Fl.abs, Fl.lt, Fl.sqrtF, Fl.powi, Fl.powNat,
      Fl.totalCmp, sqEx, projScoreF, ptOriX1, ptOriX2, unitScale, syncSortLe,
      List.mergeSort, List.merge, Function.comp, ordLtEqGt, ordGtEqGt,
      ordEqEqGt, ordLtEqLt, ordGtEqLt, ordEqEqLt]

theorem stepEntrySync_done {MC B : Type} (sq : ℚ → ℚ)
    (F : PointM → Fl × PointM × B) (config : OptimizableConfig MC)
    (ss rt : Fl) (lim : Int) (e : Fl × OptimizationState × B)
    (hd : e.2.1.done = true) :
    stepEntrySync sq F config ss rt lim e = e := by
  simp [stepEntrySync, hd]

theorem stepEntrySync_live_score {MC B : Type} (sq : ℚ → ℚ)
    (F : PointM → Fl × PointM × B) (config : OptimizableConfig MC)
    (ss rt : Fl) (lim : Int) (e : Fl × OptimizationState × B)
    (hd : e.2.1.done = false) :
    (stepEntrySync sq F config ss rt lim e).1 = (F e.2.1.point).1 := by
  simp only [stepEntrySync, hd, Bool.false_eq_true, if_false]
  rfl

theorem stepEntrySync_live_point {MC B : Type} (sq : ℚ → ℚ)
    (F : PointM → Fl × PointM × B) (config : OptimizableConfig MC)
    (ss rt : Fl) (lim : Int) (e : Fl × OptimizationState × B)
    (hd : e.2.1.done = false) :
    (stepEntrySync sq F config ss rt lim e).2.1.point =
      config.normalise_point
        (adamRawNewPoint sq ss e.2.1.point e.2.1.first_moment
          e.2.1.second_moment (F e.2.1.point).2.1 (e.2.1.time + 1)).1 := by
  simp only [stepEntrySync, hd, Bool.false_eq_true, if_false]
  split <;> rfl

/-- C7 (amended): `step` never drops a seed — NaN-state seeds included —
so both arenas return exactly one `OptimizationOutput` per population
entry (spec §8 invariant 3 holds; the UI truncates to its top 10 by
`take`, outside `step`). -/
theorem C7_step_preserves_cardinality :
    (∀ (MC B Bs H : Type) (sq : ℚ → ℚ) (F : PointM → Fl × PointM × B)
        (scaleF : H → B → Bs) (a : SyncOptimizationArena MC B H),
      ((SyncOptimizationArena.step sq F scaleF a).2).length =
        a.points.length) ∧
    (∀ (MC B Bs H : Type) (sq : ℚ → ℚ) (F : PointM → Fl × PointM × B)
        (scaleF : H → B → Bs) (a : AsyncOptimizationArena MC B H),
      ((AsyncOptimizationArena.step sq F scaleF a).2).length =
        a.points.length) := by
  constructor
  · intro MC B Bs H sq F scaleF a
    simp [SyncOptimizationArena.step, List.length_mergeSort]
  · intro MC B Bs H sq F scaleF a
    simp [AsyncOptimizationArena.step, List.length_mergeSort]

/-- C7 (counterexample): a two-seed serial arena whose first seed state
is entirely NaN still yields two output records from `step` — the NaN
seed is not dropped from the ranked output. -/
theorem C7_counterexample :
    (syncArenaOf [ptNan, ptOriX1]).points.length = 2 ∧
    Fl.nan ∈ ptNan.headD [] ∧
    ((syncArenaOf [ptNan, ptOriX1]).points.map (fun e => e.2.1.point)) =
      [ptNan, ptOriX1] ∧
    ((SyncOptimizationArena.step sqEx projScoreF unitScale
        (syncArenaOf [ptNan, ptOriX1])).2).length = 2 := by
  refine ⟨by norm_num [syncArenaOf, SyncOptimizationArena.new,
      SyncOptimizationArena.reset], by norm_num [ptNan], ?_, ?_⟩
  · norm_num [syncArenaOf, SyncOptimizationArena.new,
      SyncOptimizationArena.reset, OptimizationState.new]
  · norm_num [SyncOptimizationArena.step, List.length_mergeSort,
      syncArenaOf, SyncOptimizationArena.new, SyncOptimizationArena.reset]

/-- C2 (amended): every output of the serial `step` stems from a
population entry; done entries pass through unchanged, and for a live
entry the returned `score` is the heuristic evaluation of the seed's
PRE-step parameters while the returned `parameters` matrix is the
POST-step (Adam-updated, normalised) point — the returned score is one
step stale with respect to the returned parameters. -/
theorem C2_score_is_prestep_eval {MC B Bs H : Type} (sq : ℚ → ℚ)
    (F : PointM → Fl × PointM × B) (scaleF : H → B → Bs)
    (a : SyncOptimizationArena MC B H) :
    ∀ o ∈ (SyncOptimizationArena.step sq F scaleF a).2,
      outputProvenance sq F a o := by
  intro o ho
  simp only [SyncOptimizationArena.step, List.mem_map, List.mem_mergeSort] at ho
  obtain ⟨e', he', rfl⟩ := ho
  obtain ⟨e, he, rfl⟩ := he'
  refine ⟨e, he, ?_⟩
  by_cases hd : e.2.1.done
  · left
    rw [stepEntrySync_done sq F a.config a.step_size a.frontier_ratio_threshold
      a.frontier_time_limit e hd]
    exact ⟨hd, rfl, rfl⟩
  · right
    have hd' : e.2.1.done = false := by simpa using hd
    refine ⟨hd', ?_, ?_⟩
    · show (stepEntrySync sq F a.config a.step_size a.frontier_ratio_threshold
        a.frontier_time_limit e).1 = (F e.2.1.point).1
      exact stepEntrySync_live_score sq F a.config a.step_size
        a.frontier_ratio_threshold a.frontier_time_limit e hd'
    · show (stepEntrySync sq F a.config a.step_size a.frontier_ratio_threshold
        a.frontier_time_limit e).2.1.point = _
      exact stepEntrySync_live_point sq F a.config a.step_size
        a.frontier_ratio_threshold a.frontier_time_limit e hd'

/-- Witness for `C2_score_is_prestep_eval` at a concrete single-seed
arena: the (unique) output of one serial step satisfies the provenance
property. -/
theorem C2_score_is_prestep_eval_witness :
    outputProvenance sqEx projScoreF (syncArenaOf [ptOriX1])
      (((SyncOptimizationArena.step sqEx projScoreF unitScale
          (syncArenaOf [ptOriX1])).2).headD
        (mkOutput unitCfg () unitScale
          (Fl.fin 0, OptimizationState.new [], ()))) := by
  refine C2_score_is_prestep_eval sqEx projScoreF unitScale
    (syncArenaOf [ptOriX1]) _ ?_
  norm_num [SyncOptimizationArena.step, stepEntrySync, adam_optimizer,
    adamRawNewPoint, mkOutput, syncArenaOf, SyncOptimizationArena.new,
    SyncOptimizationArena.reset, OptimizationState.new, unitCfg,
    SymetricalOptimization, symNormalisePoint, vecNormalize, vecNormSq,
    vecSum, matAdd, matScale, matDivScalar, matAddScalar, matCompMul,
    matCompDiv, matZipWith, matMap, matZeroLike, Fl.add, Fl.sub, Fl.neg,
    Fl.mul, Fl.div, Fl.abs, Fl.lt, Fl.sqrtF, Fl.powi, Fl.powNat,
    Fl.totalCmp, sqEx, projScoreF, ptOriX1, unitScale, syncSortLe,
    List.mergeSort, List.merge, Function.comp, ordLtEqGt, ordGtEqGt,
    ordEqEqGt, ordLtEqLt, ordGtEqLt, ordEqEqLt]

/-- C2 (counterexample): on a single-seed arena with a nonzero constant
gradient, the output's score (the pre-step evaluation, 0) differs from
the heuristic evaluated at the output's parameters by more than 10⁻⁹
relative error: the map below computes, per output, whether
`10⁻⁹ · |evaluate(parameters)| < |score − evaluate(parameters)|`. -/
theorem C2_counterexample :
    ((SyncOptimizationArena.step sqEx projGradF unitScale
        (syncArenaOf [ptOri])).2.map
      (fun o => Fl.lt
        ((Fl.fin (1/1000000000)).mul ((projGradF o.parameters).1.abs))
        ((o.score.sub (projGradF o.parameters).1).abs))) = [true] := by
  norm_num [SyncOptimizationArena.step, stepEntrySync, adam_optimizer,
    adamRawNewPoint, mkOutput, syncArenaOf, SyncOptimizationArena.new,
    SyncOptimizationArena.reset, OptimizationState.new, unitCfg,
    SymetricalOptimization, symNormalisePoint, vecNormalize, vecNormSq,
    vecSum, matAdd, matScale, matDivScalar, matAddScalar, matCompMul,
    matCompDiv, matZipWith, matMap, matZeroLike, Fl.add, Fl.sub, Fl.neg,
    Fl.mul, Fl.div, Fl.abs, Fl.lt, Fl.sqrtF, Fl.powi, Fl.powNat,
    Fl.totalCmp, sqEx, projGradF, ptOri, unitScale, syncSortLe,
    List.mergeSort, List.merge, Function.comp, ordLtEqGt, ordGtEqGt,
    ordEqEqGt, ordLtEqLt, ordGtEqLt, ordEqEqLt, abs_of_nonneg,
    abs_of_nonpos]

theorem stepEntryAsync_done_eq {MC B : Type} (sq : ℚ → ℚ)
    (F : PointM → Fl × PointM × B) (config : OptimizableConfig MC)
    (ss rt : Fl) (e : Fl × OptimizationState × B) :
    (stepEntryAsync sq F config ss rt e).2.1.done = e.2.1.done := by
  by_cases hd : e.2.1.done
  · simp [stepEntryAsync, hd]
  · simp only [stepEntryAsync, hd, Bool.false_eq_true, if_false]
    rw [show (adam_optimizer sq F config ss rt e.2.1).new_point.done =
      e.2.1.done from rfl]
    simpa using hd

/-- C4 (amended): (i) in the serial arena a done seed is excluded from
all subsequent Adam updates — its stored score, state and breakdown are
present unchanged in the population after any number of later steps;
(ii) the data-parallel arena never sets `done` (the assignment is
commented out), so a population that starts all-live stays all-live
forever no matter how stagnant; (iii) the serial step marks a live seed
done exactly when `time - frontier_threshold.1 > frontier_time_limit`
after the update — there is no gradient-norm (`critical_point_epsilon`)
criterion in the arena step (that rule exists only in the standalone
ascent binaries). -/
theorem C4_done_semantics :
    (∀ (MC B Bs H : Type) (sq : ℚ → ℚ) (F : PointM → Fl × PointM × B)
        (scaleF : H → B → Bs) (a : SyncOptimizationArena MC B H)
        (e : Fl × OptimizationState × B), e ∈ a.points →
        e.2.1.done = true → ∀ n : ℕ,
        e ∈ (SyncOptimizationArena.stepN sq F scaleF n a).points) ∧
    (∀ (MC B Bs H : Type) (sq : ℚ → ℚ) (F : PointM → Fl × PointM × B)
        (scaleF : H → B → Bs) (a : AsyncOptimizationArena MC B H),
        (∀ e ∈ a.points, e.2.1.done = false) → ∀ (n : ℕ)
        (e' : Fl × OptimizationState × B),
        e' ∈ (AsyncOptimizationArena.stepN sq F scaleF n a).points →
        e'.2.1.done = false) ∧
    (∀ (MC B : Type) (sq : ℚ → ℚ) (F : PointM → Fl × PointM × B)
        (config : OptimizableConfig MC) (ss rt : Fl) (lim : Int)
        (e : Fl × OptimizationState × B), e.2.1.done = false →
        (stepEntrySync sq F config ss rt lim e).2.1.done =
          decide (lim <
            (adam_optimizer sq F config ss rt e.2.1).new_point.time -
            (adam_optimizer sq F config ss rt
              e.2.1).new_point.frontier_threshold.2)) := by
  refine ⟨?_, ?_, ?_⟩
  · intro MC B Bs H sq F scaleF a e he hd n
    induction n with
    | zero => exact he
    | succ n ih =>
      show e ∈ (SyncOptimizationArena.step sq F scaleF
        (SyncOptimizationArena.stepN sq F scaleF n a)).1.points
      simp only [SyncOptimizationArena.step, List.mem_mergeSort, List.mem_map]
      exact ⟨e, ih, stepEntrySync_done _ _ _ _ _ _ e hd⟩
  · intro MC B Bs H sq F scaleF a h0 n
    induction n with
    | zero => exact h0
    | succ n ih =>
      intro e' he'
      simp only [AsyncOptimizationArena.stepN] at he'
      simp only [AsyncOptimizationArena.step, List.mem_mergeSort,
        List.mem_map] at he'
      obtain ⟨e, he, rfl⟩ := he'
      rw [stepEntryAsync_done_eq]
      exact ih e he
  · intro MC B sq F config ss rt lim e hd
    simp only [stepEntrySync, hd, Bool.false_eq_true, if_false]
    split
    · next h => simp [h]
    · next h => simpa [h] using hd

/-- Witness for `C4_done_semantics`: the three parts applied at concrete
inputs — a done seed with stored score 7 survives a serial step
unchanged, the seed of a fresh one-seed parallel arena is still live
after a step, and the serial done-marking rule evaluated on a fresh
seed. -/
theorem C4_done_semantics_witness :
    ((Fl.fin 7, doneState, ()) ∈
      (SyncOptimizationArena.stepN sqEx constScoreF unitScale 1
        doneSeedArena).points) ∧
    (((AsyncOptimizationArena.stepN sqEx constScoreF unitScale 1
        (asyncArenaOf [ptOri])).points.headD
        (Fl.fin 0, OptimizationState.new [], ())).2.1.done = false) ∧
    ((stepEntrySync sqEx constScoreF unitCfg (Fl.fin (1/100))
        (Fl.fin (101/100)) 25
        (Fl.inf false, OptimizationState.new ptOri, ())).2.1.done =
      decide ((25 : Int) <
        (adam_optimizer sqEx constScoreF unitCfg (Fl.fin (1/100))
          (Fl.fin (101/100)) (OptimizationState.new ptOri)).new_point.time -
        (adam_optimizer sqEx constScoreF unitCfg (Fl.fin (1/100))
          (Fl.fin (101/100))
          (OptimizationState.new ptOri)).new_point.frontier_threshold.2)) := by
  refine ⟨?_, ?_, ?_⟩
  · exact C4_done_semantics.1 Unit Unit Unit Unit sqEx constScoreF unitScale
      doneSeedArena (Fl.fin 7, doneState, ())
      (by norm_num [doneSeedArena, syncArenaOf, SyncOptimizationArena.new,
        SyncOptimizationArena.reset])
      (by norm_num [doneState]) 1
  · exact C4_done_semantics.2.1 Unit Unit Unit Unit sqEx constScoreF unitScale
      (asyncArenaOf [ptOri])
      (by norm_num [asyncArenaOf, AsyncOptimizationArena.new,
        AsyncOptimizationArena.reset, OptimizationState.new]) 1 _
      (by norm_num [AsyncOptimizationArena.stepN, AsyncOptimizationArena.step,
        stepEntryAsync, adam_optimizer, adamRawNewPoint, asyncArenaOf,
        AsyncOptimizationArena.new, AsyncOptimizationArena.reset,
        OptimizationState.new, unitCfg, SymetricalOptimization,
        symNormalisePoint, vecNormalize, vecNormSq, vecSum, matAdd, matScale,
        matDivScalar, matAddScalar, matCompMul, matCompDiv, matZipWith,
        matMap, matZeroLike, Fl.add, Fl.sub, Fl.neg, Fl.mul, Fl.div, Fl.abs,
        Fl.lt, Fl.sqrtF, Fl.powi, Fl.powNat, Fl.totalCmp, sqEx, constScoreF,
        ptOri, unitScale, asyncSortLe, List.mergeSort, List.merge,
        Function.comp, ordLtEqGt, ordGtEqGt, ordEqEqGt, ordLtEqLt, ordGtEqLt,
        ordEqEqLt])
  · exact C4_done_semantics.2.2 Unit Unit sqEx constScoreF unitCfg
      (Fl.fin (1/100)) (Fl.fin (101/100)) 25
      (Fl.inf false, OptimizationState.new ptOri, ()) (by norm_num
        [OptimizationState.new])

/-- C4 (counterexample): a parallel-arena seed with constant score 5 and
zero gradient — stagnant by any measure, and with gradient norm far
below `critical_point_epsilon` — still has `done = false`, unchanged
stagnation tracker `(-∞, 0)` and running time counter after 27 steps:
the data-parallel arena never marks seeds done. -/
theorem C4_counterexample :
    ((AsyncOptimizationArena.stepN sqEx constScoreF unitScale 27
        (asyncArenaOf [ptOri])).points.map
      (fun e => (e.1, e.2.1.done, e.2.1.time, e.2.1.frontier_threshold))) =
      [(Fl.fin 5, false, 27, (Fl.inf false, 0))] := by
  norm_num [AsyncOptimizationArena.stepN, AsyncOptimizationArena.step,
    stepEntryAsync, adam_optimizer, adamRawNewPoint, asyncArenaOf,
    AsyncOptimizationArena.new, AsyncOptimizationArena.reset,
    OptimizationState.new, unitCfg, SymetricalOptimization,
    symNormalisePoint, vecNormalize, vecNormSq, vecSum, matAdd, matScale,
    matDivScalar, matAddScalar, matCompMul, matCompDiv, matZipWith, matMap,
    matZeroLike, Fl.add, Fl.sub, Fl.neg, Fl.mul, Fl.div, Fl.abs, Fl.lt,
    Fl.sqrtF, Fl.powi, Fl.powNat, Fl.totalCmp, sqEx, constScoreF, ptOri,
    unitScale, asyncSortLe, List.mergeSort, List.merge, Function.comp,
    ordLtEqGt, ordGtEqGt, ordEqEqGt, ordLtEqLt, ordGtEqLt, ordEqEqLt]

theorem stepEntrySync_live_state {MC B : Type} (sq : ℚ → ℚ)
    (F : PointM → Fl × PointM × B) (config : OptimizableConfig MC)
    (ss rt : Fl) (lim : Int) (e : Fl × OptimizationState × B)
    (hd : e.2.1.done = false) :
    (stepEntrySync sq F config ss rt lim e).2.1 =
      (if lim < (adam_optimizer sq F config ss rt e.2.1).new_point.time -
          (adam_optimizer sq F config ss rt
            e.2.1).new_point.frontier_threshold.2
        then { (adam_optimizer sq F config ss rt e.2.1).new_point with
          done := true }
        else (adam_optimizer sq F config ss rt e.2.1).new_point) := by
  simp only [stepEntrySync, hd, Bool.false_eq_true, if_false]

theorem adam_optimizer_time {MC B : Type} (sq : ℚ → ℚ)
    (F : PointM → Fl × PointM × B) (config : OptimizableConfig MC)
    (ss rt : Fl) (st : OptimizationState) :
    (adam_optimizer sq F config ss rt st).new_point.time = st.time + 1 := rfl

theorem adam_frontier_neginf {MC B : Type} (sq : ℚ → ℚ)
    (F : PointM → Fl × PointM × B) (config : OptimizableConfig MC)
    (ss : Fl) (st : OptimizationState)
    (h : st.frontier_threshold.1 = Fl.inf false) :
    (adam_optimizer sq F config ss (Fl.fin (101/100))
      st).new_point.frontier_threshold = st.frontier_threshold := by
  have hmul : (st.frontier_threshold.1.mul (Fl.fin (101/100))).abs =
      Fl.inf true := by
    rw [h]
    norm_num [Fl.mul, Fl.abs]
  show (if ((st.frontier_threshold.1.mul (Fl.fin (101/100))).abs.lt
      (F st.point).1.abs) = true
    then ((F st.point).1, st.time + 1) else st.frontier_threshold) = _
  rw [hmul, Fl.lt_posInf_left]
  simp

theorem syncStepN_knobs {MC B Bs H : Type} (sq : ℚ → ℚ)
    (F : PointM → Fl × PointM × B) (scaleF : H → B → Bs) (n : ℕ)
    (a : SyncOptimizationArena MC B H) :
    (SyncOptimizationArena.stepN sq F scaleF n a).step_size = a.step_size ∧
    (SyncOptimizationArena.stepN sq F scaleF n a).frontier_ratio_threshold =
      a.frontier_ratio_threshold ∧
    (SyncOptimizationArena.stepN sq F scaleF n a).frontier_time_limit =
      a.frontier_time_limit ∧
    (SyncOptimizationArena.stepN sq F scaleF n a).config = a.config := by
  induction n with
  | zero => exact ⟨rfl, rfl, rfl, rfl⟩
  | succ n ih =>
    exact ⟨ih.1, ih.2.1, ih.2.2.1, ih.2.2.2⟩

/-- C10: in the serial arena with the default knobs installed by `new`
(refresh ratio 1.01, stagnation window 25) and seeds installed by
`reset`, the stagnation tracker starts at `(-∞, 0)` and is never
refreshed — `|(-∞) · 1.01| = +∞` exceeds the absolute value of every
score, NaN and `+∞` included — so, whatever the evaluation returns,
every seed is marked done at the end of step 26 (`time = 26 > 25`), its
step counter freezes at 26, and `done = true` exactly from the 26th
step on. -/
theorem C10_default_frontier_forces_done :
    ∀ (MC B Bs H : Type) (sq : ℚ → ℚ) (F : PointM → Fl × PointM × B)
      (scaleF : H → B → Bs) (config : OptimizableConfig MC) (h0 h1 : H)
      (b0 : B) (ps : List PointM) (n : ℕ),
      ∀ e ∈ (SyncOptimizationArena.stepN sq F scaleF n
        ((SyncOptimizationArena.new config h0).reset ps h1 b0)).points,
        e.2.1.frontier_threshold = (Fl.inf false, 0) ∧
        e.2.1.done = decide (26 ≤ n) ∧
        e.2.1.time = min (n : Int) 26 := by
  intro MC B Bs H sq F scaleF config h0 h1 b0 ps n
  induction n with
  | zero =>
    intro e he
    simp only [SyncOptimizationArena.stepN, SyncOptimizationArena.reset,
      SyncOptimizationArena.new, List.mem_map] at he
    obtain ⟨p, _, rfl⟩ := he
    refine ⟨rfl, by norm_num [OptimizationState.new], by
      norm_num [OptimizationState.new]⟩
  | succ n ih =>
    intro e he
    set A := SyncOptimizationArena.stepN sq F scaleF n
      ((SyncOptimizationArena.new config h0).reset ps h1 b0) with hA
    have hknobs := syncStepN_knobs sq F scaleF n
      ((SyncOptimizationArena.new config h0).reset ps h1 b0)
    have hrt : A.frontier_ratio_threshold = Fl.fin (101/100) := hknobs.2.1
    have hlim : A.frontier_time_limit = 25 := hknobs.2.2.1
    simp only [SyncOptimizationArena.stepN, ← hA, SyncOptimizationArena.step,
      List.mem_mergeSort, List.mem_map] at he
    obtain ⟨e0, he0, rfl⟩ := he
    obtain ⟨hft0, hdone0, htime0⟩ := ih e0 he0
    by_cases h26 : 26 ≤ n
    · have hd : e0.2.1.done = true := by
        rw [hdone0]
        simp [h26]
      rw [stepEntrySync_done _ _ _ _ _ _ _ hd]
      refine ⟨hft0, ?_, ?_⟩
      · rw [hdone0]
        simp [h26, Nat.le_succ_of_le h26]
      · rw [htime0]
        omega
    · have hd : e0.2.1.done = false := by
        rw [hdone0]
        simp [h26]
      rw [hrt, hlim, stepEntrySync_live_state sq F A.config A.step_size
        (Fl.fin (101/100)) 25 e0 hd]
      have hft1 := adam_frontier_neginf sq F A.config A.step_size e0.2.1
        (by rw [hft0])
      rw [hft0] at hft1
      have htime1 := adam_optimizer_time sq F A.config A.step_size
        (Fl.fin (101/100)) e0.2.1
      rw [htime0] at htime1
      have hmin : min (n : Int) 26 = (n : Int) := by omega
      rw [hmin] at htime1
      split
      · next hcond =>
        rw [hft1, htime1] at hcond
        have hc' : 26 ≤ n + 1 := by
          have : (25 : ℤ) < (n : ℤ) + 1 - 0 := hcond
          omega
        refine ⟨?_, ?_, ?_⟩
        · simpa using hft1
        · simp [hc']
        · have : min ((n : Int) + 1) 26 = (n : Int) + 1 := by omega
          simpa [this, Nat.cast_add] using htime1
      · next hcond =>
        rw [hft1, htime1] at hcond
        have hc' : ¬ (26 ≤ n + 1) := by
          have : ¬ ((25 : ℤ) < (n : ℤ) + 1 - 0) := hcond
          omega
        refine ⟨hft1, ?_, ?_⟩
        · have hdone1 : (adam_optimizer sq F A.config A.step_size
              (Fl.fin (101/100)) e0.2.1).new_point.done = e0.2.1.done := rfl
          rw [hdone1, hd]
          simp [hc']
        · have : min ((n : Int) + 1) 26 = (n : Int) + 1 := by omega
          rw [htime1]
          simp [this, Nat.cast_add]

/-- Witness for `C10_default_frontier_forces_done`: after one step of a
freshly reset one-seed serial arena the seed's tracker is still
`(-∞, 0)`, it is not yet done, and its time is 1. -/
theorem C10_default_frontier_forces_done_witness :
    (((SyncOptimizationArena.stepN sqEx constScoreF unitScale 1
        ((SyncOptimizationArena.new unitCfg ()).reset [ptOri] () ())).points.headD
      (Fl.fin 0, OptimizationState.new [], ())).2.1.frontier_threshold =
        (Fl.inf false, 0)) ∧
    (((SyncOptimizationArena.stepN sqEx constScoreF unitScale 1
        ((SyncOptimizationArena.new unitCfg ()).reset [ptOri] () ())).points.headD
      (Fl.fin 0, OptimizationState.new [], ())).2.1.done = decide (26 ≤ 1)) ∧
    (((SyncOptimizationArena.stepN sqEx constScoreF unitScale 1
        ((SyncOptimizationArena.new unitCfg ()).reset [ptOri] () ())).points.headD
      (Fl.fin 0, OptimizationState.new [], ())).2.1.time =
        min ((1 : ℕ) : Int) 26) := by
  exact C10_default_frontier_forces_done Unit Unit Unit Unit sqEx constScoreF
    unitScale unitCfg () () () [ptOri] 1 _
    (by norm_num [SyncOptimizationArena.stepN, SyncOptimizationArena.step,
      stepEntrySync, adam_optimizer, adamRawNewPoint,
      SyncOptimizationArena.new, SyncOptimizationArena.reset,
      OptimizationState.new, unitCfg, SymetricalOptimization,
      symNormalisePoint, vecNormalize, vecNormSq, vecSum, matAdd, matScale,
      matDivScalar, matAddScalar, matCompMul, matCompDiv, matZipWith, matMap,
      matZeroLike, Fl.add, Fl.sub, Fl.neg, Fl.mul, Fl.div, Fl.abs, Fl.lt,
      Fl.sqrtF, Fl.powi, Fl.powNat, Fl.totalCmp, sqEx, constScoreF, ptOri,
      unitScale, syncSortLe, List.mergeSort, List.merge, Function.comp,
      ordLtEqGt, ordGtEqGt, ordEqEqGt, ordLtEqLt, ordGtEqLt, ordEqEqLt])

theorem adam_frontier_cases {MC B : Type} (sq : ℚ → ℚ)
    (F : PointM → Fl × PointM × B) (config : OptimizableConfig MC)
    (ss rt : Fl) (st : OptimizationState) :
    (adam_optimizer sq F config ss rt st).new_point.frontier_threshold =
        ((F st.point).1, st.time + 1) ∨
      (adam_optimizer sq F config ss rt st).new_point.frontier_threshold =
        st.frontier_threshold := by
  by_cases h : ((st.frontier_threshold.1.mul rt).abs.lt
      (F st.point).1.abs) = true
  · left
    show (if ((st.frontier_threshold.1.mul rt).abs.lt
      (F st.point).1.abs) = true
      then ((F st.point).1, st.time + 1) else st.frontier_threshold) = _
    rw [if_pos h]
  · right
    show (if ((st.frontier_threshold.1.mul rt).abs.lt
      (F st.point).1.abs) = true
      then ((F st.point).1, st.time + 1) else st.frontier_threshold) = _
    rw [if_neg h]

theorem stepEntryAsync_live_eq {MC B : Type} (sq : ℚ → ℚ)
    (F : PointM → Fl × PointM × B) (config : OptimizableConfig MC)
    (ss rt : Fl) (e : Fl × OptimizationState × B)
    (hd : e.2.1.done = false) :
    stepEntryAsync sq F config ss rt e =
      ((adam_optimizer sq F config ss rt e.2.1).old_score,
       (adam_optimizer sq F config ss rt e.2.1).new_point,
       (adam_optimizer sq F config ss rt e.2.1).score_breakdown) := by
  simp only [stepEntryAsync, hd, Bool.false_eq_true, if_false]

theorem stepEntrySync_live_eq {MC B : Type} (sq : ℚ → ℚ)
    (F : PointM → Fl × PointM × B) (config : OptimizableConfig MC)
    (ss rt : Fl) (lim : Int) (e : Fl × OptimizationState × B)
    (hd : e.2.1.done = false) :
    stepEntrySync sq F config ss rt lim e =
      ((adam_optimizer sq F config ss rt e.2.1).old_score,
       (if lim < (adam_optimizer sq F config ss rt e.2.1).new_point.time -
            (adam_optimizer sq F config ss rt
              e.2.1).new_point.frontier_threshold.2
         then { (adam_optimizer sq F config ss rt e.2.1).new_point with
           done := true }
         else (adam_optimizer sq F config ss rt e.2.1).new_point),
       (adam_optimizer sq F config ss rt e.2.1).score_breakdown) := by
  simp only [stepEntrySync, hd, Bool.false_eq_true, if_false]

theorem syncAsync_iter_eq {MC B : Type} (sq : ℚ → ℚ)
    (F : PointM → Fl × PointM × B) (config : OptimizableConfig MC)
    (ss rt : Fl) (e0 : Fl × OptimizationState × B)
    (hd0 : e0.2.1.done = false) (ht0 : e0.2.1.time = 0)
    (hf0 : e0.2.1.frontier_threshold.2 = 0) :
    ∀ k : ℕ, k ≤ 25 →
      (stepEntrySync sq F config ss rt 25)^[k] e0 =
        (stepEntryAsync sq F config ss rt)^[k] e0 ∧
      ((stepEntryAsync sq F config ss rt)^[k] e0).2.1.done = false ∧
      ((stepEntryAsync sq F config ss rt)^[k] e0).2.1.time = (k : Int) ∧
      0 ≤ ((stepEntryAsync sq F config ss rt)^[k]
        e0).2.1.frontier_threshold.2 ∧
      ((stepEntryAsync sq F config ss rt)^[k] e0).2.1.frontier_threshold.2 ≤
        (k : Int) := by
  intro k
  induction k with
  | zero =>
    intro _
    simp only [Function.iterate_zero_apply]
    refine ⟨trivial, hd0, by simpa using ht0, by rw [hf0], by rw [hf0]; omega⟩
  | succ k ih =>
    intro hk
    obtain ⟨heq, hdx, htx, hfx0, hfxk⟩ := ih (by omega)
    set x := (stepEntryAsync sq F config ss rt)^[k] e0 with hx
    have hgsucc : (stepEntryAsync sq F config ss rt)^[k+1] e0 =
        stepEntryAsync sq F config ss rt x := by
      rw [Function.iterate_succ_apply']
    have hfsucc : (stepEntrySync sq F config ss rt 25)^[k+1] e0 =
        stepEntrySync sq F config ss rt 25 x := by
      rw [Function.iterate_succ_apply', heq]
    have hglive := stepEntryAsync_live_eq sq F config ss rt x hdx
    have hflive := stepEntrySync_live_eq sq F config ss rt 25 x hdx
    have htime1 : (adam_optimizer sq F config ss rt x.2.1).new_point.time =
        (k : Int) + 1 := by
      rw [adam_optimizer_time, htx]
    have hftcases := adam_frontier_cases sq F config ss rt x.2.1
    have hftbounds :
        0 ≤ (adam_optimizer sq F config ss rt
            x.2.1).new_point.frontier_threshold.2 ∧
        (adam_optimizer sq F config ss rt
            x.2.1).new_point.frontier_threshold.2 ≤ (k : Int) + 1 := by
      rcases hftcases with hcase | hcase
      · rw [hcase, htx]
        constructor <;> omega
      · rw [hcase]
        exact ⟨hfx0, by omega⟩
    have hcond : ¬ ((25 : Int) <
        (adam_optimizer sq F config ss rt x.2.1).new_point.time -
        (adam_optimizer sq F config ss rt
          x.2.1).new_point.frontier_threshold.2) := by
      rw [htime1]
      have h1 := hftbounds.1
      have h2 : ((k : Int) + 1) ≤ 25 := by exact_mod_cast (by omega : k+1 ≤ 25)
      omega
    have hdone1 : (adam_optimizer sq F config ss rt x.2.1).new_point.done =
        false := by
      rw [show (adam_optimizer sq F config ss rt x.2.1).new_point.done =
        x.2.1.done from rfl, hdx]
    refine ⟨?_, ?_, ?_, ?_, ?_⟩
    · rw [hfsucc, hgsucc, hflive, hglive, if_neg hcond]
    · rw [hgsucc, hglive]
      exact hdone1
    · rw [hgsucc, hglive]
      simpa using htime1
    · rw [hgsucc, hglive]
      exact hftbounds.1
    · rw [hgsucc, hglive]
      simpa using hftbounds.2

theorem asyncStepN_knobs {MC B Bs H : Type} (sq : ℚ → ℚ)
    (F : PointM → Fl × PointM × B) (scaleF : H → B → Bs) (n : ℕ)
    (a : AsyncOptimizationArena MC B H) :
    (AsyncOptimizationArena.stepN sq F scaleF n a).step_size = a.step_size ∧
    (AsyncOptimizationArena.stepN sq F scaleF n a).frontier_ratio_threshold =
      a.frontier_ratio_threshold ∧
    (AsyncOptimizationArena.stepN sq F scaleF n a).frontier_time_limit =
      a.frontier_time_limit ∧
    (AsyncOptimizationArena.stepN sq F scaleF n a).config = a.config := by
  induction n with
  | zero => exact ⟨rfl, rfl, rfl, rfl⟩
  | succ n ih =>
    exact ⟨ih.1, ih.2.1, ih.2.2.1, ih.2.2.2⟩

theorem syncStepN_singleton {MC B Bs H : Type} (sq : ℚ → ℚ)
    (F : PointM → Fl × PointM × B) (scaleF : H → B → Bs)
    (a : SyncOptimizationArena MC B H) (e : Fl × OptimizationState × B)
    (hpts : a.points = [e]) (n : ℕ) :
    (SyncOptimizationArena.stepN sq F scaleF n a).points =
      [(stepEntrySync sq F a.config a.step_size a.frontier_ratio_threshold
        a.frontier_time_limit)^[n] e] := by
  induction n with
  | zero => simpa using hpts
  | succ n ih =>
    have hknobs := syncStepN_knobs sq F scaleF n a
    simp only [SyncOptimizationArena.stepN, SyncOptimizationArena.step]
    rw [ih, hknobs.1, hknobs.2.1, hknobs.2.2.1, hknobs.2.2.2]
    simp only [List.map_cons, List.map_nil, List.mergeSort_singleton]
    rw [Function.iterate_succ_apply']

theorem asyncStepN_singleton {MC B Bs H : Type} (sq : ℚ → ℚ)
    (F : PointM → Fl × PointM × B) (scaleF : H → B → Bs)
    (a : AsyncOptimizationArena MC B H) (e : Fl × OptimizationState × B)
    (hpts : a.points = [e]) (n : ℕ) :
    (AsyncOptimizationArena.stepN sq F scaleF n a).points =
      [(stepEntryAsync sq F a.config a.step_size
        a.frontier_ratio_threshold)^[n] e] := by
  induction n with
  | zero => simpa using hpts
  | succ n ih =>
    have hknobs := asyncStepN_knobs sq F scaleF n a
    simp only [AsyncOptimizationArena.stepN, AsyncOptimizationArena.step]
    rw [ih, hknobs.1, hknobs.2.1, hknobs.2.2.2]
    simp only [List.map_cons, List.map_nil, List.mergeSort_singleton]
    rw [Function.iterate_succ_apply']

/-- C3 (amended): started from the same single fresh seed, the serial
and the data-parallel arena produce identical stored scores for the
seed for the first 26 steps (the serial arena can first mark the seed
done only at the end of step 26, and the score it records in that step
still matches the parallel arena's). -/
theorem C3_serial_parallel_agree_up_to_26 :
    ∀ (MC B Bs H : Type) (sq : ℚ → ℚ) (F : PointM → Fl × PointM × B)
      (scaleF : H → B → Bs) (cfg : OptimizableConfig MC) (h0 h1 : H)
      (b0 : B) (p : PointM) (n : ℕ), n ≤ 26 →
      ((SyncOptimizationArena.stepN sq F scaleF n
        ((SyncOptimizationArena.new cfg h0).reset [p] h1 b0)).points.map
          (fun e => e.1)) =
      ((AsyncOptimizationArena.stepN sq F scaleF n
        ((AsyncOptimizationArena.new cfg h0).reset [p] h1 b0)).points.map
          (fun e => e.1)) := by
  intro MC B Bs H sq F scaleF cfg h0 h1 b0 p n hn
  have hs := syncStepN_singleton sq F scaleF
    ((SyncOptimizationArena.new cfg h0).reset [p] h1 b0)
    (Fl.inf false, OptimizationState.new p, b0) rfl n
  have ha := asyncStepN_singleton sq F scaleF
    ((AsyncOptimizationArena.new cfg h0).reset [p] h1 b0)
    (Fl.inf false, OptimizationState.new p, b0) rfl n
  rw [hs, ha]
  simp only [List.map_cons, List.map_nil]
  congr 1
  show ((stepEntrySync sq F cfg (Fl.fin (1/100)) (Fl.fin (101/100)) 25)^[n]
      (Fl.inf false, OptimizationState.new p, b0)).1 =
    ((stepEntryAsync sq F cfg (Fl.fin (1/100)) (Fl.fin (101/100)))^[n]
      (Fl.inf false, OptimizationState.new p, b0)).1
  rcases Nat.lt_or_ge n 26 with h26 | h26
  · have h := syncAsync_iter_eq sq F cfg (Fl.fin (1/100)) (Fl.fin (101/100))
      (Fl.inf false, OptimizationState.new p, b0) rfl rfl rfl n (by omega)
    rw [h.1]
  · have hn26 : n = 26 := by omega
    subst hn26
    have h25 := syncAsync_iter_eq sq F cfg (Fl.fin (1/100))
      (Fl.fin (101/100)) (Fl.inf false, OptimizationState.new p, b0)
      rfl rfl rfl 25 (by omega)
    have hf : (stepEntrySync sq F cfg (Fl.fin (1/100)) (Fl.fin (101/100))
        25)^[26] (Fl.inf false, OptimizationState.new p, b0) =
        stepEntrySync sq F cfg (Fl.fin (1/100)) (Fl.fin (101/100)) 25
          ((stepEntryAsync sq F cfg (Fl.fin (1/100))
            (Fl.fin (101/100)))^[25]
            (Fl.inf false, OptimizationState.new p, b0)) := by
      rw [show (26 : ℕ) = 25 + 1 from rfl, Function.iterate_succ_apply',
        h25.1]
    have hg : (stepEntryAsync sq F cfg (Fl.fin (1/100))
        (Fl.fin (101/100)))^[26]
        (Fl.inf false, OptimizationState.new p, b0) =
        stepEntryAsync sq F cfg (Fl.fin (1/100)) (Fl.fin (101/100))
          ((stepEntryAsync sq F cfg (Fl.fin (1/100))
            (Fl.fin (101/100)))^[25]
            (Fl.inf false, OptimizationState.new p, b0)) := by
      rw [show (26 : ℕ) = 25 + 1 from rfl, Function.iterate_succ_apply']
    rw [hf, hg, stepEntrySync_live_score sq F cfg (Fl.fin (1/100))
      (Fl.fin (101/100)) 25 _ h25.2.1, stepEntryAsync_live_eq sq F cfg
      (Fl.fin (1/100)) (Fl.fin (101/100)) _ h25.2.1]
    rfl

/-- Witness for `C3_serial_parallel_agree_up_to_26` at two steps of
concrete one-seed arenas. -/
theorem C3_serial_parallel_agree_witness :
    ((SyncOptimizationArena.stepN sqEx projGradF unitScale 2
      ((SyncOptimizationArena.new unitCfg ()).reset [ptOri] () ())).points.map
        (fun e => e.1)) =
    ((AsyncOptimizationArena.stepN sqEx projGradF unitScale 2
      ((AsyncOptimizationArena.new unitCfg ()).reset [ptOri] () ())).points.map
        (fun e => e.1)) :=
  C3_serial_parallel_agree_up_to_26 Unit Unit Unit Unit sqEx projGradF
    unitScale unitCfg () () () ptOri 2 (by norm_num)

set_option maxHeartbeats 2000000 in
/-- C3 (counterexample): after 28 steps on the same single seed with a
constant unit gradient in the seed's first coordinate, the serial arena
froze the seed at the end of step 26 (its stored score is the step-26
evaluation, 25·δ with δ = 10⁸/(10¹⁰+1) the constant Adam step of this
run), while the parallel arena kept updating it (stored score 27·δ);
the two scores differ by far more than 10⁻⁹ relative error. -/
theorem C3_counterexample :
    ((SyncOptimizationArena.stepN sqEx projGradF unitScale 28
      ((SyncOptimizationArena.new unitCfg ()).reset [ptOri] () ())).points.map
        (fun e => e.1)) = [Fl.fin (2500000000/10000000001)] ∧
    ((AsyncOptimizationArena.stepN sqEx projGradF unitScale 28
      ((AsyncOptimizationArena.new unitCfg ()).reset [ptOri] () ())).points.map
        (fun e => e.1)) = [Fl.fin (2700000000/10000000001)] ∧
    Fl.lt
      ((Fl.fin (1/1000000000)).mul ((Fl.fin (2700000000/10000000001)).abs))
      (((Fl.fin (2500000000/10000000001)).sub
        (Fl.fin (2700000000/10000000001))).abs) = true := by
  refine ⟨?_, ?_, by norm_num [Fl.mul, Fl.abs, Fl.sub, Fl.neg, Fl.add, Fl.lt,
    abs_of_nonneg, abs_of_nonpos]⟩
  · norm_num [SyncOptimizationArena.stepN, SyncOptimizationArena.step,
      stepEntrySync, adam_optimizer, adamRawNewPoint,
      SyncOptimizationArena.new, SyncOptimizationArena.reset,
      OptimizationState.new, unitCfg, SymetricalOptimization,
      symNormalisePoint, vecNormalize, vecNormSq, vecSum, matAdd, matScale,
      matDivScalar, matAddScalar, matCompMul, matCompDiv, matZipWith, matMap,
      matZeroLike, Fl.add, Fl.sub, Fl.neg, Fl.mul, Fl.div, Fl.abs, Fl.lt,
      Fl.sqrtF, Fl.powi, Fl.powNat, Fl.totalCmp, sqEx, projGradF, ptOri,
      unitScale, syncSortLe, List.mergeSort, List.merge, Function.comp,
      ordLtEqGt, ordGtEqGt, ordEqEqGt, ordLtEqLt, ordGtEqLt, ordEqEqLt]
  · norm_num [AsyncOptimizationArena.stepN, AsyncOptimizationArena.step,
      stepEntryAsync, adam_optimizer, adamRawNewPoint,
      AsyncOptimizationArena.new, AsyncOptimizationArena.reset,
      OptimizationState.new, unitCfg, SymetricalOptimization,
      symNormalisePoint, vecNormalize, vecNormSq, vecSum, matAdd, matScale,
      matDivScalar, matAddScalar, matCompMul, matCompDiv, matZipWith, matMap,
      matZeroLike, Fl.add, Fl.sub, Fl.neg, Fl.mul, Fl.div, Fl.abs, Fl.lt,
      Fl.sqrtF, Fl.powi, Fl.powNat, Fl.totalCmp, sqEx, projGradF, ptOri,
      unitScale, asyncSortLe, List.mergeSort, List.merge, Function.comp,
      ordLtEqGt, ordGtEqGt, ordEqEqGt, ordLtEqLt, ordGtEqLt, ordEqEqLt]
